import Mathlib

/-!
Verification of the Snappjack SDK client core (connection manager, tool
registry, protocol dispatcher) against its specification.

The development shallowly embeds the TypeScript sources:

* `ConnectionManager` (connection-manager.ts): close-event handling,
  close-code classification, reconnection gating, disconnect.
* `ToolRegistry` (tool-registry.ts): registration with strict-schema
  rewriting, lookup, validation.
* `Snappjack` dispatcher (snappjack.ts): message routing, tool-call
  dispatch, agent-session bookkeeping, reply tagging.

JSON values are modelled by the inductive `JVal`; JSON schemas by the
inductive `Schema`, restricted to the keyword subset the SDK manipulates
(`type`, `properties`, `required`, `additionalProperties`, `items`).
The AJV validator engine is an external collaborator of the repository
(spec section 1); `validateErrors` models its documented compiled-schema
checking semantics on this keyword subset, without type coercion.
Asynchronous external effects (the credential-validation HTTP round trip,
tool-handler execution) are modelled as oracle parameters.
-/

namespace Snappjack

/-- JSON values as produced by JSON.parse: the inputs of message handling
and schema validation. Numbers are modelled as integers. -/
inductive JVal where
  | null : JVal
  | bool (b : Bool) : JVal
  | num (n : Int) : JVal
  | str (s : String) : JVal
  | arr (elems : List JVal) : JVal
  | obj (fields : List (String × JVal)) : JVal

/-- JSON schemas, restricted to the keyword subset that
`enforceStrictSchema` inspects and that tool input schemas use:
`type` (a string), `properties` (a map of subschemas), `required`
(a list of property names), `additionalProperties` (a boolean), and
`items` (a single subschema). `none` models an absent keyword. -/
inductive Schema where
  | mk (type : Option String)
       (properties : Option (List (String × Schema)))
       (required : List String)
       (additionalProperties : Option Bool)
       (items : Option Schema) : Schema

def Schema.typeOf : Schema → Option String
  | Schema.mk t _ _ _ _ => t

def Schema.propertiesOf : Schema → Option (List (String × Schema))
  | Schema.mk _ p _ _ _ => p

def Schema.requiredOf : Schema → List String
  | Schema.mk _ _ r _ _ => r

def Schema.additionalPropertiesOf : Schema → Option Bool
  | Schema.mk _ _ _ a _ => a

def Schema.itemsOf : Schema → Option Schema
  | Schema.mk _ _ _ _ i => i

/-- Association-list field lookup, modelling JavaScript property access
on a parsed JSON object. -/
def lookupField (fields : List (String × JVal)) (k : String) : Option JVal :=
  match fields with
  | [] => none
  | (k', v) :: rest => if k' = k then some v else lookupField rest k

/-- Association-list lookup for schema property maps. -/
def lookupProp (ps : List (String × Schema)) (k : String) : Option Schema :=
  match ps with
  | [] => none
  | (k', s) :: rest => if k' = k then some s else lookupProp rest k

/-- Names of the declared properties of a schema's `properties` keyword
(empty when the keyword is absent). -/
def propNames : Option (List (String × Schema)) → List String
  | none => []
  | some ps => ps.map Prod.fst

/-- A single validation error, as AJV reports it: an instance path and a
message. The registry and dispatcher only inspect these two fields. -/
structure VError where
  instancePath : String
  message : String
deriving DecidableEq

/-- Errors contributed by the `type` keyword. Modelled from the AJV
collaborator's JSON-Schema semantics: the keyword is checked only when
present, and each primitive type name accepts exactly the matching
`JVal` constructor (`integer` and `number` both accept `JVal.num`,
which models integral numbers). -/
def typeErrs (t : Option String) (path : String) (v : JVal) : List VError :=
  match t with
  | none => []
  | some ty =>
    match ty, v with
    | "object", JVal.obj _ => []
    | "object", _ => [⟨path, "must be object"⟩]
    | "array", JVal.arr _ => []
    | "array", _ => [⟨path, "must be array"⟩]
    | "string", JVal.str _ => []
    | "string", _ => [⟨path, "must be string"⟩]
    | "number", JVal.num _ => []
    | "number", _ => [⟨path, "must be number"⟩]
    | "integer", JVal.num _ => []
    | "integer", _ => [⟨path, "must be integer"⟩]
    | "boolean", JVal.bool _ => []
    | "boolean", _ => [⟨path, "must be boolean"⟩]
    | "null", JVal.null => []
    | "null", _ => [⟨path, "must be null"⟩]
    | _, _ => []

/-- Errors contributed by the `required` keyword on an object value. -/
def requiredErrs (r : List String) (path : String)
    (fields : List (String × JVal)) : List VError :=
  r.filterMap (fun k =>
    if (lookupField fields k).isSome then none
    else some ⟨path, "must have required property " ++ k⟩)

/-- Errors contributed by `additionalProperties: false` on an object
value: one error per field whose name is not among the declared
property names. -/
def addPropsErrs (names : List String) (path : String)
    (fields : List (String × JVal)) : List VError :=
  fields.filterMap (fun kv =>
    if names.contains kv.1 then none
    else some ⟨path, "must NOT have additional properties"⟩)

mutual

/-- Compiled-schema validation, modelling the AJV collaborator on the
keyword subset of `Schema`: the value validates iff the error list is
empty. Each keyword contributes errors independently when applicable
(`properties`, `required` and `additionalProperties` to object values,
`items` to array values), matching JSON-Schema semantics. -/
def validateErrors : Schema → String → JVal → List VError
  | Schema.mk t p r a _, path, JVal.obj fields =>
      typeErrs t path (JVal.obj fields)
      ++ (match p with
          | some ps => propsErrs ps path fields
          | none => [])
      ++ requiredErrs r path fields
      ++ (match a with
          | some false => addPropsErrs (propNames p) path fields
          | _ => [])
  | Schema.mk t _ _ _ i, path, JVal.arr elems =>
      typeErrs t path (JVal.arr elems)
      ++ (match i with
          | some sub => itemsErrs sub path 0 elems
          | none => [])
  | Schema.mk t _ _ _ _, path, v => typeErrs t path v

/-- Validation of the declared properties of an object value: each
declared property whose field is present is validated against its
subschema at the extended instance path. -/
def propsErrs : List (String × Schema) → String → List (String × JVal) → List VError
  | [], _, _ => []
  | (k, sub) :: rest, path, fields =>
    (match lookupField fields k with
     | some fv => validateErrors sub (path ++ "/" ++ k) fv
     | none => []) ++ propsErrs rest path fields

/-- Validation of the elements of an array value against the `items`
subschema, with positional instance paths. -/
def itemsErrs : Schema → String → Nat → List JVal → List VError
  | _, _, _, [] => []
  | sub, path, idx, x :: rest =>
      validateErrors sub (path ++ "/" ++ toString idx) x
      ++ itemsErrs sub path (idx + 1) rest

end

mutual

/-- Embeds `ToolRegistry.enforceStrictSchema` (tool-registry.ts):
when the schema has `type: "object"` and a (truthy) `properties` map, it
sets `additionalProperties: false` and rewrites every property
subschema; when the schema has `type: "array"` and a (truthy) `items`
subschema, it rewrites the `items` subschema; all other keywords are
copied unchanged. The two guards in the source are sequential ifs on the
same `type` string, so at most one of them fires. -/
def enforceStrictSchema : Schema → Schema
  | Schema.mk t (some ps) r a i =>
      if t = some "object" then
        Schema.mk t (some (enforceProps ps)) r (some false)
          (if t = some "array" then enforceItemsOpt i else i)
      else
        Schema.mk t (some ps) r a
          (if t = some "array" then enforceItemsOpt i else i)
  | Schema.mk t none r a i =>
      Schema.mk t none r a (if t = some "array" then enforceItemsOpt i else i)

/-- The recursion of `enforceStrictSchema` over the entries of a
`properties` map. -/
def enforceProps : List (String × Schema) → List (String × Schema)
  | [] => []
  | (k, sub) :: rest => (k, enforceStrictSchema sub) :: enforceProps rest

/-- The recursion of `enforceStrictSchema` into an `items` subschema. -/
def enforceItemsOpt : Option Schema → Option Schema
  | none => none
  | some sub => some (enforceStrictSchema sub)

end

/-- A registered tool: name, optional description, input schema, and an
optional handler. Handler execution is opaque to the registry (the
dispatcher runs it); only its presence matters here, so the handler
slot is modelled by `Option Unit`. -/
structure Tool where
  name : String
  description : Option String
  inputSchema : Schema
  handler : Option Unit

/-- Insert-or-replace on a string-keyed association list, modelling
`Map.set`. -/
def mapSet {α : Type} (m : List (String × α)) (k : String) (x : α) :
    List (String × α) :=
  match m with
  | [] => [(k, x)]
  | (k', y) :: rest => if k' = k then (k, x) :: rest else (k', y) :: mapSet rest k x

/-- Lookup on a string-keyed association list, modelling `Map.get`. -/
def mapGet {α : Type} (m : List (String × α)) (k : String) : Option α :=
  match m with
  | [] => none
  | (k', y) :: rest => if k' = k then some y else mapGet rest k

/-- Embeds the state of `ToolRegistry` (tool-registry.ts): the tool map
and the map of compiled validators. A compiled validator is represented
by the strict schema it checks; compilation by the AJV collaborator is
modelled as succeeding on every `Schema` (the subset excludes the
malformed raw schemas on which `ajv.compile` throws). -/
structure ToolRegistry where
  tools : List (String × Tool)
  validators : List (String × Schema)

/-- Embeds `ToolRegistry.register`: stores the tool (replacing a prior
entry of the same name) and caches a validator compiled from the
strict rewriting of its input schema. -/
def ToolRegistry.register (reg : ToolRegistry) (tool : Tool) : ToolRegistry :=
  { tools := mapSet reg.tools tool.name tool,
    validators := mapSet reg.validators tool.name
      (enforceStrictSchema tool.inputSchema) }

/-- Embeds `ToolRegistry.has`. -/
def ToolRegistry.has (reg : ToolRegistry) (name : String) : Bool :=
  (mapGet reg.tools name).isSome

/-- Embeds `ToolRegistry.getHandler`: the stored tool's handler, absent
when the tool is unknown or has no handler. -/
def ToolRegistry.getHandler (reg : ToolRegistry) (name : String) : Option Unit :=
  (mapGet reg.tools name).bind Tool.handler

/-- Embeds `ValidationResult` (types.ts). In the source `errors` is
omitted on success; that is modelled by the empty list. -/
structure ValidationResult where
  isValid : Bool
  errors : List VError

/-- Embeds `ToolRegistry.validate`: permissive fallback when no
validator is cached, otherwise the compiled validator runs and failures
are reported with `instancePath` defaulted to "root" when empty
(the source's instancePath-or-root fallback on the falsy empty string). -/
def ToolRegistry.validate (reg : ToolRegistry) (name : String) (args : JVal) :
    ValidationResult :=
  match mapGet reg.validators name with
  | none => ⟨true, []⟩
  | some compiled =>
    let errs := validateErrors compiled "" args
    if errs.isEmpty then ⟨true, []⟩
    else ⟨false, errs.map (fun e =>
      ⟨if e.instancePath = "" then "root" else e.instancePath, e.message⟩)⟩

/-- The schema with every keyword absent: what governs a value position
for which the schema declares nothing. -/
def Schema.empty : Schema := Schema.mk none none [] none none

/-- Whether property name `k` is declared by the schema's `properties`
keyword (a schema without `properties` declares no properties). -/
def declaredIn (s : Schema) (k : String) : Bool :=
  match s.propertiesOf with
  | some ps => (ps.map Prod.fst).contains k
  | none => false

/-- The subschema declared for property `k`, or the empty schema. -/
def propSchemaOrEmpty (s : Schema) (k : String) : Schema :=
  match s.propertiesOf with
  | some ps => (lookupProp ps k).getD Schema.empty
  | none => Schema.empty

/-- The `items` subschema, or the empty schema. -/
def itemsOrEmpty (s : Schema) : Schema :=
  (s.itemsOf).getD Schema.empty

mutual

/-- Formalisation of the claim's wording (refinement side, not from the
source): the value contains no properties not declared in the schema at
any nesting level, walking object properties through their declared
subschemas and array items through the `items` subschema. -/
def noUndeclared : Schema → JVal → Bool
  | s, JVal.obj fields => nuFields s fields
  | s, JVal.arr elems => nuElems (itemsOrEmpty s) elems
  | _, _ => true

/-- Object-field recursion of `noUndeclared`: every field must be
declared and its value clean under the declared subschema. -/
def nuFields : Schema → List (String × JVal) → Bool
  | _, [] => true
  | s, (k, fv) :: rest =>
      declaredIn s k && noUndeclared (propSchemaOrEmpty s k) fv && nuFields s rest

/-- Array-element recursion of `noUndeclared`. -/
def nuElems : Schema → List JVal → Bool
  | _, [] => true
  | s, x :: rest => noUndeclared s x && nuElems s rest

end

/-- Whether every field name of the object value is among the declared
property names. -/
def fieldsDeclared (ps : List (String × Schema)) (fields : List (String × JVal)) : Bool :=
  fields.all (fun kv => (ps.map Prod.fst).contains kv.1)

mutual

/-- The strictness `enforceStrictSchema` actually yields (amended-claim
side): undeclared properties are rejected exactly at object subschemas
that carry a `properties` map and `type: "object"`, reached through the
rewriting recursion (declared property subschemas, and `items` under
`type: "array"`); elsewhere the schema is left permissive. -/
def noUndeclaredStrict : Schema → JVal → Bool
  | Schema.mk t (some ps) _ _ i, v =>
      if t = some "object" then
        match v with
        | JVal.obj fields => fieldsDeclared ps fields && nusProps ps fields
        | _ => true
      else if t = some "array" then
        match i, v with
        | some sub, JVal.arr elems => nusElems sub elems
        | _, _ => true
      else true
  | Schema.mk t none _ _ i, v =>
      if t = some "array" then
        match i, v with
        | some sub, JVal.arr elems => nusElems sub elems
        | _, _ => true
      else true

/-- Declared-property recursion of `noUndeclaredStrict`, mirroring
`propsErrs`. -/
def nusProps : List (String × Schema) → List (String × JVal) → Bool
  | [], _ => true
  | (k, sub) :: rest, fields =>
      (match lookupField fields k with
       | some fv => noUndeclaredStrict sub fv
       | none => true) && nusProps rest fields

/-- Array-element recursion of `noUndeclaredStrict`, mirroring
`itemsErrs`. -/
def nusElems : Schema → List JVal → Bool
  | _, [] => true
  | sub, x :: rest => noUndeclaredStrict sub x && nusElems sub rest

end

/-- Embeds `SnappjackStatus` (types.ts). -/
inductive SnappjackStatus where
  | disconnected
  | connected
  | bridged
  | error
deriving DecidableEq

/-- The `type` field of `SnappjackError` (types.ts). -/
inductive ErrorType where
  | auth_failed
  | server_unreachable
  | connection_failed
  | unknown
deriving DecidableEq

/-- Embeds `SnappjackError` (types.ts). -/
structure SnappjackError where
  type : ErrorType
  message : String
  canRetry : Bool
  canResetCredentials : Bool
deriving DecidableEq

/-- Embeds `CredentialValidationResult` (types.ts): the outcome of the
out-of-band credential validation HTTP round trip. The round trip is an
external effect, so theorems take the outcome as an oracle parameter. -/
inductive CredentialValidationResult where
  | valid
  | invalid
  | unreachable
deriving DecidableEq

/-- Embeds `ReadyState` (websocket-wrapper.ts). -/
inductive ReadyState where
  | CONNECTING
  | OPEN
  | CLOSING
  | CLOSED
deriving DecidableEq

/-- Which callback is installed as the socket's `onclose`: `connect()`
installs the manager's close handling; `disconnect()` replaces it with a
bare promise resolver. -/
inductive CloseCallback where
  | managerHandleClose
  | disconnectResolve
deriving DecidableEq

/-- The transport socket handle, as far as the manager observes it:
its ready state and its installed close callback. -/
structure WebSocketHandle where
  readyState : ReadyState
  onclose : CloseCallback
deriving DecidableEq

/-- The fields of `ConnectionConfig` (types.ts) that close handling and
reconnection read. -/
structure ConnectionConfig where
  autoReconnect : Bool
  reconnectInterval : Nat
  maxReconnectAttempts : Nat
  testMode : Bool

/-- The mutable fields of `ConnectionManager` (connection-manager.ts).
`reconnectTimerPending` models whether a scheduled reconnection timer is
pending (set by `scheduleReconnect`, cleared by `clearReconnectTimer`). -/
structure CMState where
  ws : Option WebSocketHandle
  status : SnappjackStatus
  reconnectTimerPending : Bool
  reconnectAttempts : Nat
  receivedUserApiKey : Option String
deriving DecidableEq

/-- Events emitted by the connection manager that the claims observe. -/
inductive CMEvent where
  | statusChange (status : SnappjackStatus)
  | errorEvent (e : SnappjackError)
deriving DecidableEq

/-- Embeds `ConnectionManager.updateStatus`: change the status and emit
`statusChange` only when the status differs. -/
def updateStatus (s : CMState) (newStatus : SnappjackStatus) :
    CMState × List CMEvent :=
  if s.status = newStatus then (s, [])
  else ({ s with status := newStatus }, [CMEvent.statusChange newStatus])

/-- Substring test on character lists (helper for `strContains`). -/
def containsAux (pat : List Char) : List Char → Bool
  | [] => pat.isEmpty
  | c :: rest => pat.isPrefixOf (c :: rest) || containsAux pat rest

/-- Models `String.prototype.includes`. -/
def strContains (s pat : String) : Bool :=
  containsAux pat.data s.data

/-- Embeds `ConnectionManager.classifyConnectionError`: the close-code
switch (1000, 1002/1008, 1006, 1011), the auth keyword scan of the
reason for other codes, and the unknown fallback. -/
def classifyConnectionError (code : Nat) (reason : String) : SnappjackError :=
  if code = 1000 then
    ⟨ErrorType.connection_failed, "Connection closed normally", true, false⟩
  else if code = 1002 ∨ code = 1008 then
    ⟨ErrorType.auth_failed, "Authentication failed - invalid credentials", false, true⟩
  else if code = 1006 then
    ⟨ErrorType.server_unreachable, "Connection lost - server may be unreachable", true, false⟩
  else if code = 1011 then
    ⟨ErrorType.connection_failed, "Server encountered an error", true, false⟩
  else if strContains reason.toLower "auth" || strContains reason.toLower "unauthorized" then
    ⟨ErrorType.auth_failed, "Authentication failed: " ++ reason, false, true⟩
  else
    ⟨ErrorType.unknown,
     "Connection failed (code: " ++ toString code
       ++ (if reason = "" then "" else ", reason: " ++ reason) ++ ")",
     true, false⟩

/-- Embeds `ConnectionManager.shouldReconnect`. -/
def shouldReconnect (cfg : ConnectionConfig) (s : CMState) (closeCode : Nat) : Bool :=
  closeCode != 1000 && closeCode != 1008
    && decide (s.reconnectAttempts < cfg.maxReconnectAttempts)

/-- Embeds `ConnectionManager.clearReconnectTimer`. -/
def clearReconnectTimer (s : CMState) : CMState :=
  { s with reconnectTimerPending := false }

/-- The delay computed by `ConnectionManager.scheduleReconnect`:
exponential backoff capped at 30000 ms, or a fixed 1 ms in test mode. -/
def reconnectDelay (cfg : ConnectionConfig) (s : CMState) : Nat :=
  if cfg.testMode then 1
  else min (cfg.reconnectInterval * 2 ^ s.reconnectAttempts) 30000

/-- Embeds `ConnectionManager.scheduleReconnect` as far as state goes:
clears any pending timer and arms a new one. -/
def scheduleReconnect (s : CMState) : CMState :=
  { clearReconnectTimer s with reconnectTimerPending := true }

/-- The error chosen at the top of `ConnectionManager.handleClose`: for
code 1006 with an observed credential, the switch over the out-of-band
validation result; otherwise `classifyConnectionError`. The source
message strings are reproduced without their inner quote characters. -/
def closeError (s : CMState) (code : Nat) (reason : String)
    (validationResult : CredentialValidationResult) : SnappjackError :=
  if code = 1006 ∧ s.receivedUserApiKey.isSome then
    match validationResult with
    | CredentialValidationResult.invalid =>
        ⟨ErrorType.auth_failed, "Authentication failed - invalid credentials", false, true⟩
    | CredentialValidationResult.valid =>
        ⟨ErrorType.connection_failed,
         "WebSocket connection failed despite valid credentials", true, false⟩
    | CredentialValidationResult.unreachable =>
        ⟨ErrorType.server_unreachable,
         "Cannot connect to server - please check your network connection and server URL",
         true, false⟩
  else classifyConnectionError code reason

/-- Embeds `ConnectionManager.handleClose`: null the socket handle,
choose the error, and branch — auth failures set status `error`, emit
the error and return; otherwise status becomes `disconnected` and a
reconnection is scheduled iff `autoReconnect`, the error is retryable
and `shouldReconnect` allows the code, while non-retryable errors are
emitted. -/
def handleClose (cfg : ConnectionConfig) (s : CMState) (code : Nat)
    (reason : String) (validationResult : CredentialValidationResult) :
    CMState × List CMEvent :=
  let s0 := { s with ws := none }
  let e := closeError s0 code reason validationResult
  if e.type = ErrorType.auth_failed then
    let us := updateStatus s0 SnappjackStatus.error
    (us.1, us.2 ++ [CMEvent.errorEvent e])
  else
    let us := updateStatus s0 SnappjackStatus.disconnected
    if cfg.autoReconnect && e.canRetry && shouldReconnect cfg us.1 code then
      (scheduleReconnect us.1, us.2)
    else if !e.canRetry then
      (us.1, us.2 ++ [CMEvent.errorEvent e])
    else
      (us.1, us.2)

/-- Delivery of the socket's close event to whichever callback is
installed: `connect()` installs the manager's `handleClose`;
`disconnect()` installs a bare resolver that performs no state change
and emits nothing. -/
def deliverClose (cfg : ConnectionConfig) (s : CMState) (code : Nat)
    (reason : String) (validationResult : CredentialValidationResult) :
    CMState × List CMEvent :=
  match s.ws with
  | some sock =>
    match sock.onclose with
    | CloseCallback.managerHandleClose => handleClose cfg s code reason validationResult
    | CloseCallback.disconnectResolve => (s, [])
  | none => (s, [])

/-- Embeds `ConnectionManager.disconnect`: clear any pending reconnect
timer; if a socket exists and is open, replace its `onclose` with the
bare resolver and send the code-1000 close frame, whose resulting close
event is delivered to the installed (replaced) callback; otherwise
resolve immediately. -/
def disconnect (cfg : ConnectionConfig) (s : CMState)
    (validationResult : CredentialValidationResult) : CMState × List CMEvent :=
  let s0 := clearReconnectTimer s
  match s0.ws with
  | some sock =>
    if sock.readyState = ReadyState.OPEN then
      let s1 := { s0 with
        ws := some { sock with onclose := CloseCallback.disconnectResolve } }
      deliverClose cfg s1 1000 "Client disconnect" validationResult
    else (s0, [])
  | none => (s0, [])

/-- A JSON-RPC request id (`string | number` in types.ts); `missing`
models an absent or non-primitive id field. -/
inductive RpcId where
  | str (s : String)
  | num (n : Int)
  | missing
deriving DecidableEq

/-- A text content item of a tool reply. -/
structure ContentItem where
  type : String
  text : String
deriving DecidableEq

/-- Embeds `ToolResponse` (types.ts): a content list and the business
error flag (`isError` is optional in the source; absent is modelled by
`false`). -/
structure ToolResponse where
  content : List ContentItem
  isError : Bool
deriving DecidableEq

/-- Embeds `ErrorResponse` (types.ts): a protocol-level JSON-RPC error
object. -/
structure ErrorResponse where
  code : Int
  message : String
  data : Option String
deriving DecidableEq

/-- The `params` object of a tool call. -/
structure ToolCallParams where
  name : String
  arguments : JVal

/-- Embeds `ToolCallMessage` (types.ts), at its declared types. -/
structure ToolCallMessage where
  id : RpcId
  params : ToolCallParams
  agentSessionId : String

/-- An outbound JSON-RPC reply: either a structurally successful
envelope carrying a `result`, or a protocol-level envelope carrying an
`error` object. Both carry the agent-session tag. -/
inductive Outbound where
  | response (id : RpcId) (result : ToolResponse) (agentSessionId : Option String)
  | errorReply (id : RpcId) (e : ErrorResponse) (agentSessionId : Option String)

/-- The agent-session tag of an outbound reply. -/
def Outbound.sessionTag : Outbound → Option String
  | Outbound.response _ _ a => a
  | Outbound.errorReply _ _ a => a

/-- The mutable fields of the `Snappjack` dispatcher (snappjack.ts)
that the claims observe, plus the connection status it manipulates
through `connectionManager.updateStatus`. -/
structure DState where
  currentAgentSessionId : Option String
  lastToolCallAgentSessionId : Option String
  status : SnappjackStatus

/-- Domain events emitted by the dispatcher. -/
inductive DEvent where
  | statusChange (status : SnappjackStatus)
  | agentConnected (agentSessionId : String)
  | agentDisconnected (agentSessionId : String)
  | userApiKeyGenerated (userApiKey : String)
  | genericMessage (m : JVal)

/-- `connectionManager.updateStatus` as invoked by the dispatcher. -/
def dUpdateStatus (s : DState) (newStatus : SnappjackStatus) :
    DState × List DEvent :=
  if s.status = newStatus then (s, [])
  else ({ s with status := newStatus }, [DEvent.statusChange newStatus])

/-- Embeds `Snappjack.sendToolResponse`: a structurally successful
JSON-RPC envelope tagged with the current value of the
`lastToolCallAgentSessionId` slot at send time. -/
def sendToolResponse (s : DState) (requestId : RpcId) (result : ToolResponse) :
    Outbound :=
  Outbound.response requestId result s.lastToolCallAgentSessionId

/-- Embeds `Snappjack.sendToolError`: a protocol-level JSON-RPC error
envelope tagged with the current value of the
`lastToolCallAgentSessionId` slot at send time. -/
def sendToolError (s : DState) (requestId : RpcId) (e : ErrorResponse) :
    Outbound :=
  Outbound.errorReply requestId e s.lastToolCallAgentSessionId

/-- The state of `Snappjack.handleToolCall` saved across the `await` of
the handler: the request id and tool name captured from this call's
message. -/
structure PendingToolCall where
  id : RpcId
  toolName : String
  arguments : JVal

/-- The synchronous outcome of the first phase of
`Snappjack.handleToolCall`: an already-sent method-not-found protocol
error, an already-sent validation business error, or a pending handler
invocation. -/
inductive ToolCallPhase1 where
  | methodNotFound (reply : Outbound)
  | validationFailed (reply : Outbound)
  | awaitingHandler (ctx : PendingToolCall)

/-- Embeds `Snappjack.handleToolCall` up to its first suspension point
(the `await handler(...)`): store the message's agentSessionId in the
shared slot, look up the handler, send the -32601 protocol error if the
tool is unknown or handlerless, validate the arguments and send the
business error reply on failure, otherwise suspend awaiting the handler.
The source quotes the tool name inside its message strings; the quote
characters are omitted here. -/
def handleToolCallStart (reg : ToolRegistry) (s : DState) (m : ToolCallMessage) :
    DState × ToolCallPhase1 :=
  let s1 := { s with lastToolCallAgentSessionId := some m.agentSessionId }
  let toolName := m.params.name
  let handler := reg.getHandler toolName
  if handler.isNone || !(reg.has toolName) then
    (s1, ToolCallPhase1.methodNotFound (sendToolError s1 m.id
      ⟨-32601, "Method not found",
       some ("Tool " ++ toolName ++ " not found or no handler registered")⟩))
  else
    let vres := reg.validate toolName m.params.arguments
    if !vres.isValid then
      let joined := String.intercalate ", " (vres.errors.map (fun e =>
        (if e.instancePath = "" then "root" else e.instancePath) ++ ": " ++ e.message))
      let errorDetails := if joined = "" then "Unknown validation error" else joined
      (s1, ToolCallPhase1.validationFailed (sendToolResponse s1 m.id
        ⟨[⟨"text", "Invalid arguments for tool " ++ toolName ++ ": " ++ errorDetails⟩],
         true⟩))
    else
      (s1, ToolCallPhase1.awaitingHandler ⟨m.id, toolName, m.params.arguments⟩)

/-- What the awaited handler did, as observed by the dispatcher: it
returned a value (well-formed, or failing the structural
content-list check), or it threw/rejected with an error message. -/
inductive HandlerResult where
  | wellFormed (r : ToolResponse)
  | malformed

/-- The resolution of the handler's promise. -/
inductive HandlerOutcome where
  | returned (r : HandlerResult)
  | threw (message : String)

/-- Embeds the remainder of `Snappjack.handleToolCall` after the
handler's promise settles: a well-formed result is relayed verbatim; a
malformed result or a thrown error becomes a business-level
`isError: true` reply. All three paths send through `sendToolResponse`,
which reads the shared slot at send time. -/
def handleToolCallFinish (s : DState) (ctx : PendingToolCall)
    (outcome : HandlerOutcome) : DState × Outbound :=
  match outcome with
  | HandlerOutcome.returned (HandlerResult.wellFormed r) =>
      (s, sendToolResponse s ctx.id r)
  | HandlerOutcome.returned HandlerResult.malformed =>
      (s, sendToolResponse s ctx.id
        ⟨[⟨"text", "Tool handler for " ++ ctx.toolName ++ " returned invalid result format"⟩],
         true⟩)
  | HandlerOutcome.threw em =>
      (s, sendToolResponse s ctx.id
        ⟨[⟨"text", "Tool execution failed: " ++ em⟩], true⟩)

/-- Embeds `Snappjack.handleAgentConnected`. -/
def handleAgentConnected (s : DState) (agentSessionId : String) :
    DState × List DEvent :=
  let s1 := { s with currentAgentSessionId := some agentSessionId }
  let us := dUpdateStatus s1 SnappjackStatus.bridged
  (us.1, us.2 ++ [DEvent.agentConnected agentSessionId])

/-- Embeds `Snappjack.handleAgentDisconnected`: only a message whose id
equals the tracked session clears the slot and restores status
`connected`; the domain event is emitted in both branches. -/
def handleAgentDisconnected (s : DState) (agentSessionId : String) :
    DState × List DEvent :=
  if s.currentAgentSessionId = some agentSessionId then
    let s1 := { s with currentAgentSessionId := none }
    let us := dUpdateStatus s1 SnappjackStatus.connected
    (us.1, us.2 ++ [DEvent.agentDisconnected agentSessionId])
  else
    (s, [DEvent.agentDisconnected agentSessionId])

/-- Whether the JavaScript `in` operator is applicable: parsed JSON
objects and arrays are objects; primitives make `in` throw a TypeError. -/
def JVal.isJsObject : JVal → Bool
  | JVal.obj _ => true
  | JVal.arr _ => true
  | _ => false

/-- Property read on a parsed JSON value (absent on non-objects; array
index properties are never the names read here). -/
def getField (m : JVal) (k : String) : Option JVal :=
  match m with
  | JVal.obj fields => lookupField fields k
  | _ => none

/-- The JavaScript `in` test for the field names the dispatcher probes. -/
def hasField (m : JVal) (k : String) : Bool :=
  (getField m k).isSome

/-- JavaScript truthiness of a parsed JSON value. -/
def truthy : JVal → Bool
  | JVal.null => false
  | JVal.bool b => b
  | JVal.num n => n != 0
  | JVal.str s => s != ""
  | JVal.arr _ => true
  | JVal.obj _ => true

/-- Truthiness of a property (an absent property is `undefined`, hence
falsy). -/
def truthyField (m : JVal) (k : String) : Bool :=
  match getField m k with
  | some v => truthy v
  | none => false

/-- Strict string equality of a property with a literal (JavaScript
`===` against a string is true only for that exact string value). -/
def fieldEqStr (m : JVal) (k : String) (lit : String) : Bool :=
  match getField m k with
  | some (JVal.str s) => s = lit
  | _ => false

/-- Embeds `Snappjack.isToolCallRequest`: the duck-typing checks —
non-null object, presence of `jsonrpc`, `method`, `params` and
`agentSessionId`, `jsonrpc === "2.0"`, `method === "tools/call"`, and
truthiness of `params`, `params.name` and `agentSessionId`. -/
def isToolCallRequest (m : JVal) : Bool :=
  m.isJsObject
    && hasField m "jsonrpc" && hasField m "method"
    && hasField m "params" && hasField m "agentSessionId"
    && fieldEqStr m "jsonrpc" "2.0"
    && fieldEqStr m "method" "tools/call"
    && truthyField m "params"
    && (match getField m "params" with
        | some p => truthyField p "name"
        | none => false)
    && truthyField m "agentSessionId"

/-- The string value of a property; lifecycle and connection-info
branches are modelled at their declared string field types, with other
runtime values approximated by the empty string. -/
def strFieldD (m : JVal) (k : String) : String :=
  match getField m k with
  | some (JVal.str s) => s
  | _ => ""

/-- Embeds `Snappjack.handleConnectionInfo`: emit the credential event
when `userApiKey` is truthy, otherwise only a warning is logged. The
event payload's computed MCP endpoint is not modelled. -/
def handleConnectionInfo (s : DState) (m : JVal) : DState × List DEvent :=
  if truthyField m "userApiKey" then
    (s, [DEvent.userApiKeyGenerated (strFieldD m "userApiKey")])
  else (s, [])

/-- Embeds `Snappjack.handleMessage`: for a primitive message the
`'type' in message` probe throws a TypeError that the surrounding
try/catch swallows (a warning is the only effect); a message with a
`type` field is routed by its value, falling back to the generic
`message` event; a message without `type` is dispatched as a tool call
when `isToolCallRequest` accepts it (returned as the third component for
`handleToolCallStart`, which is invoked without awaiting), and otherwise
re-emitted as a generic `message` event. Only tool-call dispatch can
ever produce a reply. -/
def handleMessage (s : DState) (m : JVal) : DState × List DEvent × Option JVal :=
  if !m.isJsObject then
    (s, [], none)
  else if hasField m "type" then
    if fieldEqStr m "type" "connection-info" then
      let r := handleConnectionInfo s m
      (r.1, r.2, none)
    else if fieldEqStr m "type" "agent-connected" then
      let r := handleAgentConnected s (strFieldD m "agentSessionId")
      (r.1, r.2, none)
    else if fieldEqStr m "type" "agent-disconnected" then
      let r := handleAgentDisconnected s (strFieldD m "agentSessionId")
      (r.1, r.2, none)
    else
      (s, [DEvent.genericMessage m], none)
  else if isToolCallRequest m then
    (s, [], some m)
  else
    (s, [DEvent.genericMessage m], none)

def c6Reg : ToolRegistry :=
  ToolRegistry.register ⟨[], []⟩
    ⟨"echo", none, Schema.mk (some "object") none [] none none, some ()⟩

def c6Msg : ToolCallMessage := ⟨RpcId.num 7, ⟨"echo", JVal.obj []⟩, "agent-w"⟩

def c7Reg : ToolRegistry :=
  ToolRegistry.register ⟨[], []⟩
    ⟨"t", none, Schema.mk (some "object") none [] none none, some ()⟩

def c7S0 : DState := ⟨none, none, SnappjackStatus.bridged⟩

def c7S1 : DState := ⟨none, some "agent-A", SnappjackStatus.bridged⟩

def c7S2 : DState := ⟨none, some "agent-B", SnappjackStatus.bridged⟩

def c7MA : ToolCallMessage := ⟨RpcId.num 1, ⟨"t", JVal.obj []⟩, "agent-A"⟩

def c7MB : ToolCallMessage := ⟨RpcId.num 2, ⟨"t", JVal.obj []⟩, "agent-B"⟩

def c7CtxA : PendingToolCall := ⟨RpcId.num 1, "t", JVal.obj []⟩

def c7CtxB : PendingToolCall := ⟨RpcId.num 2, "t", JVal.obj []⟩

def c7Resp : ToolResponse := ⟨[⟨"text", "ok"⟩], false⟩

def c4Schema : Schema :=
  Schema.mk (some "object")
    (some [("obj", Schema.mk (some "object") none [] none none)]) [] none none

def c4Args : JVal := JVal.obj [("obj", JVal.obj [("rogue", JVal.num 1)])]

def c4Reg : ToolRegistry :=
  ToolRegistry.register ⟨[], []⟩ ⟨"t4", none, c4Schema, some ()⟩

theorem updateStatus_fst_status (s : CMState) (x : SnappjackStatus) :
    (updateStatus s x).1.status = x := by
  unfold updateStatus
  split
  next h => exact h
  next => rfl

theorem updateStatus_fst_pending (s : CMState) (x : SnappjackStatus) :
    (updateStatus s x).1.reconnectTimerPending = s.reconnectTimerPending := by
  unfold updateStatus
  split <;> rfl

theorem updateStatus_fst_key (s : CMState) (x : SnappjackStatus) :
    (updateStatus s x).1.receivedUserApiKey = s.receivedUserApiKey := by
  unfold updateStatus
  split <;> rfl

theorem updateStatus_fst_attempts (s : CMState) (x : SnappjackStatus) :
    (updateStatus s x).1.reconnectAttempts = s.reconnectAttempts := by
  unfold updateStatus
  split <;> rfl

/-- C2: close codes 1002 and 1008 classify as a non-retryable,
credential-resettable auth failure; `handleClose` then sets status
`error`, emits the error event immediately, and schedules no
reconnection whatever `autoReconnect` is, so the status reads `error`
and no reconnection timer is pending afterwards. -/
theorem c2_auth_close_codes (cfg : ConnectionConfig) (s : CMState)
    (reason : String) (vr : CredentialValidationResult) (code : Nat)
    (hcode : code = 1002 ∨ code = 1008)
    (htimer : s.reconnectTimerPending = false) :
    classifyConnectionError code reason =
      ⟨ErrorType.auth_failed, "Authentication failed - invalid credentials", false, true⟩ ∧
    (handleClose cfg s code reason vr).1.status = SnappjackStatus.error ∧
    CMEvent.errorEvent
        ⟨ErrorType.auth_failed, "Authentication failed - invalid credentials", false, true⟩
      ∈ (handleClose cfg s code reason vr).2 ∧
    (handleClose cfg s code reason vr).1.reconnectTimerPending = false := by
  have hclassify : classifyConnectionError code reason =
      ⟨ErrorType.auth_failed, "Authentication failed - invalid credentials", false, true⟩ := by
    rcases hcode with h | h <;> subst h <;> simp [classifyConnectionError]
  have hce : ∀ st : CMState, closeError st code reason vr =
      ⟨ErrorType.auth_failed, "Authentication failed - invalid credentials", false, true⟩ := by
    intro st
    rcases hcode with h | h <;> subst h <;> simpa [closeError] using hclassify
  refine ⟨hclassify, ?_, ?_, ?_⟩
  · simp [handleClose, hce, updateStatus_fst_status]
  · simp [handleClose, hce]
  · simp [handleClose, hce, updateStatus_fst_pending, htimer]

/-- C2 witness at a concrete input. -/
theorem c2_auth_close_codes_witness :
    classifyConnectionError 1008 "" =
      ⟨ErrorType.auth_failed, "Authentication failed - invalid credentials", false, true⟩ ∧
    (handleClose ⟨true, 5000, 10, false⟩ ⟨none, SnappjackStatus.connected, false, 0, none⟩
        1008 "" CredentialValidationResult.valid).1.status = SnappjackStatus.error ∧
    CMEvent.errorEvent
        ⟨ErrorType.auth_failed, "Authentication failed - invalid credentials", false, true⟩
      ∈ (handleClose ⟨true, 5000, 10, false⟩ ⟨none, SnappjackStatus.connected, false, 0, none⟩
            1008 "" CredentialValidationResult.valid).2 ∧
    (handleClose ⟨true, 5000, 10, false⟩ ⟨none, SnappjackStatus.connected, false, 0, none⟩
        1008 "" CredentialValidationResult.valid).1.reconnectTimerPending = false :=
  c2_auth_close_codes ⟨true, 5000, 10, false⟩ ⟨none, SnappjackStatus.connected, false, 0, none⟩
    "" CredentialValidationResult.valid 1008 (Or.inr rfl) rfl

/-- C3: code 1000 classifies as retryable connection_failed, yet
`shouldReconnect` excludes codes 1000 and 1008 unconditionally and for
every other code decides `reconnectAttempts < maxReconnectAttempts`, so
`handleClose` never arms the reconnection timer after a clean close. -/
theorem c3_clean_close_never_reconnects :
    (∀ reason : String, classifyConnectionError 1000 reason =
      ⟨ErrorType.connection_failed, "Connection closed normally", true, false⟩) ∧
    (∀ (cfg : ConnectionConfig) (s : CMState),
      shouldReconnect cfg s 1000 = false ∧ shouldReconnect cfg s 1008 = false) ∧
    (∀ (cfg : ConnectionConfig) (s : CMState) (code : Nat),
      code ≠ 1000 → code ≠ 1008 →
      shouldReconnect cfg s code = decide (s.reconnectAttempts < cfg.maxReconnectAttempts)) ∧
    (∀ (cfg : ConnectionConfig) (s : CMState) (reason : String)
      (vr : CredentialValidationResult),
      (handleClose cfg s 1000 reason vr).1.reconnectTimerPending
        = s.reconnectTimerPending) := by
  refine ⟨?_, ?_, ?_, ?_⟩
  · intro reason
    simp [classifyConnectionError]
  · intro cfg s
    constructor <;> simp [shouldReconnect]
  · intro cfg s code h1000 h1008
    simp [shouldReconnect, h1000, h1008]
  · intro cfg s reason vr
    have hce : ∀ st : CMState, closeError st 1000 reason vr =
        ⟨ErrorType.connection_failed, "Connection closed normally", true, false⟩ := by
      intro st
      simp [closeError, classifyConnectionError]
    simp [handleClose, hce, shouldReconnect, updateStatus_fst_pending]

/-- C3 witness at a concrete input for the hypothesis-bearing part. -/
theorem c3_clean_close_never_reconnects_witness :
    shouldReconnect ⟨true, 5000, 10, false⟩ ⟨none, SnappjackStatus.connected, false, 3, none⟩ 1006
      = decide ((3 : Nat) < 10) :=
  c3_clean_close_never_reconnects.2.2.1 ⟨true, 5000, 10, false⟩
    ⟨none, SnappjackStatus.connected, false, 3, none⟩ 1006
    (by decide) (by decide)

/-- C1: a code-1006 close with an observed credential is reclassified by
the out-of-band validation in exactly three branches: `invalid` yields
the non-retryable, credential-resettable auth failure with final status
`error`, an emitted error event and no reconnection; `valid` yields a
retryable connection_failed error; `unreachable` yields a retryable
server_unreachable error with status `disconnected` and a reconnection
scheduled when autoReconnect is on and attempts remain. -/
theorem c1_close1006_credential_reclassification
    (cfg : ConnectionConfig) (s : CMState) (reason : String)
    (vr : CredentialValidationResult)
    (hcred : s.receivedUserApiKey.isSome = true)
    (htimer : s.reconnectTimerPending = false) :
    (vr = CredentialValidationResult.invalid →
      closeError { s with ws := none } 1006 reason vr =
        ⟨ErrorType.auth_failed, "Authentication failed - invalid credentials", false, true⟩ ∧
      (handleClose cfg s 1006 reason vr).1.status = SnappjackStatus.error ∧
      CMEvent.errorEvent
          ⟨ErrorType.auth_failed, "Authentication failed - invalid credentials", false, true⟩
        ∈ (handleClose cfg s 1006 reason vr).2 ∧
      (handleClose cfg s 1006 reason vr).1.reconnectTimerPending = false) ∧
    (vr = CredentialValidationResult.valid →
      closeError { s with ws := none } 1006 reason vr =
        ⟨ErrorType.connection_failed,
         "WebSocket connection failed despite valid credentials", true, false⟩) ∧
    (vr = CredentialValidationResult.unreachable →
      closeError { s with ws := none } 1006 reason vr =
        ⟨ErrorType.server_unreachable,
         "Cannot connect to server - please check your network connection and server URL",
         true, false⟩ ∧
      (handleClose cfg s 1006 reason vr).1.status = SnappjackStatus.disconnected ∧
      (cfg.autoReconnect = true → s.reconnectAttempts < cfg.maxReconnectAttempts →
        (handleClose cfg s 1006 reason vr).1.reconnectTimerPending = true)) := by
  refine ⟨?_, ?_, ?_⟩
  · intro hv
    subst hv
    have hce : closeError { s with ws := none } 1006 reason
        CredentialValidationResult.invalid =
        ⟨ErrorType.auth_failed, "Authentication failed - invalid credentials", false, true⟩ := by
      simp [closeError, hcred]
    refine ⟨hce, ?_, ?_, ?_⟩
    · simp [handleClose, hce, updateStatus_fst_status]
    · simp [handleClose, hce]
    · simp [handleClose, hce, updateStatus_fst_pending]
      exact htimer
  · intro hv
    subst hv
    simp [closeError, hcred]
  · intro hv
    subst hv
    have hce : closeError { s with ws := none } 1006 reason
        CredentialValidationResult.unreachable =
        ⟨ErrorType.server_unreachable,
         "Cannot connect to server - please check your network connection and server URL",
         true, false⟩ := by
      simp [closeError, hcred]
    refine ⟨hce, ?_, ?_⟩
    · simp only [handleClose, hce]
      split
      next h => simp at h
      next =>
        split
        · simp [scheduleReconnect, clearReconnectTimer, updateStatus_fst_status]
        · split <;> simp [updateStatus_fst_status]
    · intro hauto hlt
      have hsr : shouldReconnect cfg
          (updateStatus { s with ws := none } SnappjackStatus.disconnected).1 1006 = true := by
        simp [shouldReconnect, updateStatus_fst_attempts, hlt]
      simp [handleClose, hce, hsr, hauto, scheduleReconnect, clearReconnectTimer]

/-- C1 witness at a concrete input (the unreachable branch). -/
theorem c1_close1006_witness :
    (handleClose ⟨true, 5000, 10, false⟩
        ⟨none, SnappjackStatus.connected, false, 0, some "k"⟩
        1006 "" CredentialValidationResult.unreachable).1.status
      = SnappjackStatus.disconnected ∧
    (handleClose ⟨true, 5000, 10, false⟩
        ⟨none, SnappjackStatus.connected, false, 0, some "k"⟩
        1006 "" CredentialValidationResult.unreachable).1.reconnectTimerPending = true := by
  have h := c1_close1006_credential_reclassification ⟨true, 5000, 10, false⟩
    ⟨none, SnappjackStatus.connected, false, 0, some "k"⟩ ""
    CredentialValidationResult.unreachable rfl rfl
  exact ⟨(h.2.2 rfl).2.1, (h.2.2 rfl).2.2 rfl (by decide)⟩

/-- C8: `disconnect` on an open socket installs the bare resolver before
sending the code-1000 close frame, so the delivered close event runs no
close handling: no event is emitted, the status is untouched, the socket
handle is not cleared, and no reconnection is pending afterwards. -/
theorem c8_disconnect_bare_resolver (cfg : ConnectionConfig) (s : CMState)
    (sock : WebSocketHandle) (vr : CredentialValidationResult)
    (hws : s.ws = some sock) (hopen : sock.readyState = ReadyState.OPEN) :
    (disconnect cfg s vr).2 = [] ∧
    (disconnect cfg s vr).1.status = s.status ∧
    (disconnect cfg s vr).1.ws =
      some { sock with onclose := CloseCallback.disconnectResolve } ∧
    (disconnect cfg s vr).1.reconnectTimerPending = false := by
  simp [disconnect, clearReconnectTimer, hws, hopen, deliverClose]

/-- C8 witness at a concrete input. -/
theorem c8_disconnect_witness :
    (disconnect ⟨true, 5000, 10, false⟩
        ⟨some ⟨ReadyState.OPEN, CloseCallback.managerHandleClose⟩,
         SnappjackStatus.connected, true, 2, none⟩
        CredentialValidationResult.valid).2 = [] ∧
    (disconnect ⟨true, 5000, 10, false⟩
        ⟨some ⟨ReadyState.OPEN, CloseCallback.managerHandleClose⟩,
         SnappjackStatus.connected, true, 2, none⟩
        CredentialValidationResult.valid).1.status = SnappjackStatus.connected ∧
    (disconnect ⟨true, 5000, 10, false⟩
        ⟨some ⟨ReadyState.OPEN, CloseCallback.managerHandleClose⟩,
         SnappjackStatus.connected, true, 2, none⟩
        CredentialValidationResult.valid).1.ws =
      some ⟨ReadyState.OPEN, CloseCallback.disconnectResolve⟩ ∧
    (disconnect ⟨true, 5000, 10, false⟩
        ⟨some ⟨ReadyState.OPEN, CloseCallback.managerHandleClose⟩,
         SnappjackStatus.connected, true, 2, none⟩
        CredentialValidationResult.valid).1.reconnectTimerPending = false :=
  c8_disconnect_bare_resolver ⟨true, 5000, 10, false⟩
    ⟨some ⟨ReadyState.OPEN, CloseCallback.managerHandleClose⟩,
     SnappjackStatus.connected, true, 2, none⟩
    ⟨ReadyState.OPEN, CloseCallback.managerHandleClose⟩
    CredentialValidationResult.valid rfl rfl

theorem handleToolCallStart_fst (reg : ToolRegistry) (s : DState) (m : ToolCallMessage) :
    (handleToolCallStart reg s m).1 =
      { s with lastToolCallAgentSessionId := some m.agentSessionId } := by
  simp only [handleToolCallStart]
  split
  · rfl
  · split <;> rfl

/-- C9: an agent-disconnected message whose session id differs from the
tracked one emits the domain event but leaves the tracked slot and the
status unchanged; a matching id clears the slot and moves status from
`bridged` back to `connected`. -/
theorem c9_agent_disconnected_frame :
    (∀ (s : DState) (a b : String), s.currentAgentSessionId = some a → b ≠ a →
      handleAgentDisconnected s b = (s, [DEvent.agentDisconnected b])) ∧
    (∀ (s : DState) (a : String), s.currentAgentSessionId = some a →
      s.status = SnappjackStatus.bridged →
      handleAgentDisconnected s a =
        ({ s with currentAgentSessionId := none, status := SnappjackStatus.connected },
         [DEvent.statusChange SnappjackStatus.connected,
          DEvent.agentDisconnected a])) := by
  constructor
  · intro s a b hcur hne
    have hab : ¬(a = b) := fun hh => hne hh.symm
    simp [handleAgentDisconnected, hcur, hab]
  · intro s a hcur hstatus
    simp [handleAgentDisconnected, hcur, dUpdateStatus, hstatus]

/-- C9 witness at concrete inputs (both branches). -/
theorem c9_agent_disconnected_witness :
    handleAgentDisconnected ⟨some "a", none, SnappjackStatus.bridged⟩ "b" =
      (⟨some "a", none, SnappjackStatus.bridged⟩, [DEvent.agentDisconnected "b"]) ∧
    handleAgentDisconnected ⟨some "a", none, SnappjackStatus.bridged⟩ "a" =
      (⟨none, none, SnappjackStatus.connected⟩,
       [DEvent.statusChange SnappjackStatus.connected, DEvent.agentDisconnected "a"]) :=
  ⟨c9_agent_disconnected_frame.1 ⟨some "a", none, SnappjackStatus.bridged⟩ "a" "b"
      rfl (by decide),
   c9_agent_disconnected_frame.2 ⟨some "a", none, SnappjackStatus.bridged⟩ "a" rfl rfl⟩

/-- C5: a tool call naming an unknown tool or one without a handler gets
the protocol-level -32601 Method not found error reply tagged with this
request's session id — the `errorReply` envelope, never a business
`response`, and no handler phase is entered. -/
theorem c5_method_not_found (reg : ToolRegistry) (s : DState) (m : ToolCallMessage)
    (h : reg.getHandler m.params.name = none ∨ reg.has m.params.name = false) :
    handleToolCallStart reg s m =
      ({ s with lastToolCallAgentSessionId := some m.agentSessionId },
       ToolCallPhase1.methodNotFound
         (Outbound.errorReply m.id
           ⟨-32601, "Method not found",
            some ("Tool " ++ m.params.name ++ " not found or no handler registered")⟩
           (some m.agentSessionId))) := by
  have hguard : ((reg.getHandler m.params.name).isNone || !(reg.has m.params.name)) = true := by
    rcases h with h | h <;> simp [h]
  simp [handleToolCallStart, hguard, sendToolError]

/-- C5 witness: the unregistered tool ghost on the empty registry. -/
theorem c5_method_not_found_witness :
    handleToolCallStart ⟨[], []⟩ ⟨none, none, SnappjackStatus.bridged⟩
        ⟨RpcId.num 1, ⟨"ghost", JVal.obj []⟩, "agent-1"⟩ =
      (⟨none, some "agent-1", SnappjackStatus.bridged⟩,
       ToolCallPhase1.methodNotFound
         (Outbound.errorReply (RpcId.num 1)
           ⟨-32601, "Method not found",
            some ("Tool " ++ "ghost" ++ " not found or no handler registered")⟩
           (some "agent-1"))) :=
  c5_method_not_found ⟨[], []⟩ ⟨none, none, SnappjackStatus.bridged⟩
    ⟨RpcId.num 1, ⟨"ghost", JVal.obj []⟩, "agent-1"⟩ (Or.inl rfl)

/-- C6: when the awaited handler throws, the reply is a structurally
successful `response` envelope (never an `errorReply`) flagged
`isError: true`, whose text contains the exception's message. -/
theorem c6_handler_throw_business_error (reg : ToolRegistry) (s s' : DState)
    (m : ToolCallMessage) (ctx : PendingToolCall) (em : String)
    (h : handleToolCallStart reg s m = (s', ToolCallPhase1.awaitingHandler ctx)) :
    handleToolCallFinish s' ctx (HandlerOutcome.threw em) =
      (s', Outbound.response ctx.id
        ⟨[⟨"text", "Tool execution failed: " ++ em⟩], true⟩
        (some m.agentSessionId)) ∧
    (∃ pre post : String, "Tool execution failed: " ++ em = pre ++ em ++ post) := by
  have hs' : s' = { s with lastToolCallAgentSessionId := some m.agentSessionId } := by
    have hfst := handleToolCallStart_fst reg s m
    rw [h] at hfst
    exact hfst
  constructor
  · simp [handleToolCallFinish, sendToolResponse, hs']
  · exact ⟨"Tool execution failed: ", "", by simp⟩

/-- C6 witness: a registered handled tool whose handler throws boom. -/
theorem c6_handler_throw_witness :
    handleToolCallFinish ⟨none, some "agent-w", SnappjackStatus.bridged⟩
        ⟨RpcId.num 7, "echo", JVal.obj []⟩ (HandlerOutcome.threw "boom") =
      (⟨none, some "agent-w", SnappjackStatus.bridged⟩,
       Outbound.response (RpcId.num 7)
         ⟨[⟨"text", "Tool execution failed: " ++ "boom"⟩], true⟩ (some "agent-w")) ∧
    (∃ pre post : String, "Tool execution failed: " ++ "boom" = pre ++ "boom" ++ post) :=
  c6_handler_throw_business_error c6Reg ⟨none, none, SnappjackStatus.bridged⟩
    ⟨none, some "agent-w", SnappjackStatus.bridged⟩ c6Msg
    ⟨RpcId.num 7, "echo", JVal.obj []⟩ "boom"
    (by simp [c6Reg, c6Msg, handleToolCallStart, ToolRegistry.register,
      ToolRegistry.getHandler, ToolRegistry.has, ToolRegistry.validate,
      mapSet, mapGet, validateErrors, typeErrs, requiredErrs, addPropsErrs,
      propNames, propsErrs, itemsErrs, enforceStrictSchema, enforceProps,
      enforceItemsOpt, sendToolResponse])

/-- C7 counterexample: while call A (session agent-A) awaits its
handler, call B (session agent-B) starts and overwrites the shared
`lastToolCallAgentSessionId` slot, so the reply to request 1 is tagged
agent-B — the session id of a different tool call. -/
theorem c7_counterexample :
    handleToolCallStart c7Reg c7S0 c7MA = (c7S1, ToolCallPhase1.awaitingHandler c7CtxA) ∧
    handleToolCallStart c7Reg c7S1 c7MB = (c7S2, ToolCallPhase1.awaitingHandler c7CtxB) ∧
    (handleToolCallFinish c7S2 c7CtxA
        (HandlerOutcome.returned (HandlerResult.wellFormed c7Resp))).2
      = Outbound.response (RpcId.num 1) c7Resp (some "agent-B") ∧
    c7MA.agentSessionId = "agent-A" ∧ "agent-A" ≠ "agent-B" := by
  refine ⟨?_, ?_, rfl, rfl, by decide⟩ <;>
    simp [c7Reg, c7S0, c7S1, c7S2, c7MA, c7MB, c7CtxA, c7CtxB, handleToolCallStart,
      ToolRegistry.register, ToolRegistry.getHandler, ToolRegistry.has,
      ToolRegistry.validate, mapSet, mapGet, validateErrors, typeErrs,
      requiredErrs, addPropsErrs, propNames, propsErrs, itemsErrs,
      enforceStrictSchema, enforceProps, enforceItemsOpt, sendToolResponse]

/-- C7 (amended): every reply is tagged with the value of the single
shared `lastToolCallAgentSessionId` slot at send time; starting a call
sets the slot to that call's session id, so a call that finishes with no
intervening start is tagged with its own id, while an overlapping start
retags a pending call's reply. -/
theorem c7_session_tag_from_slot :
    (∀ (reg : ToolRegistry) (s : DState) (m : ToolCallMessage),
      (handleToolCallStart reg s m).1.lastToolCallAgentSessionId
        = some m.agentSessionId) ∧
    (∀ (s : DState) (ctx : PendingToolCall) (outcome : HandlerOutcome),
      ((handleToolCallFinish s ctx outcome).2).sessionTag
        = s.lastToolCallAgentSessionId) ∧
    (∀ (reg : ToolRegistry) (s s' : DState) (m : ToolCallMessage)
       (ctx : PendingToolCall) (outcome : HandlerOutcome),
      handleToolCallStart reg s m = (s', ToolCallPhase1.awaitingHandler ctx) →
      ((handleToolCallFinish s' ctx outcome).2).sessionTag = some m.agentSessionId) := by
  have hfinish : ∀ (s : DState) (ctx : PendingToolCall) (outcome : HandlerOutcome),
      ((handleToolCallFinish s ctx outcome).2).sessionTag
        = s.lastToolCallAgentSessionId := by
    intro s ctx outcome
    cases outcome with
    | returned r => cases r <;> rfl
    | threw em => rfl
  refine ⟨?_, hfinish, ?_⟩
  · intro reg s m
    rw [handleToolCallStart_fst]
  · intro reg s s' m ctx outcome h
    have hfst := handleToolCallStart_fst reg s m
    rw [h] at hfst
    have hs' : s' = { s with lastToolCallAgentSessionId := some m.agentSessionId } := hfst
    rw [hfinish, hs']

/-- C7 amended-claim witness: an immediately finished call is tagged
with its own session id. -/
theorem c7_session_tag_witness :
    ((handleToolCallFinish c7S1 c7CtxA
        (HandlerOutcome.returned (HandlerResult.wellFormed c7Resp))).2).sessionTag
      = some "agent-A" :=
  c7_session_tag_from_slot.2.2 c7Reg c7S0 c7S1 c7MA c7CtxA
    (HandlerOutcome.returned (HandlerResult.wellFormed c7Resp))
    (by simp [c7Reg, c7S0, c7S1, c7MA, c7CtxA, handleToolCallStart,
      ToolRegistry.register, ToolRegistry.getHandler, ToolRegistry.has,
      ToolRegistry.validate, mapSet, mapGet, validateErrors, typeErrs,
      requiredErrs, addPropsErrs, propNames, propsErrs, itemsErrs,
      enforceStrictSchema, enforceProps, enforceItemsOpt, sendToolResponse])

/-- C10 counterexample: the primitive JSON message 5 has no type field
and fails the tool-call shape checks, yet it is not re-emitted as a
generic message event — the in-operator TypeError is swallowed and the
dispatcher emits nothing (it does also receive no reply). -/
theorem c10_counterexample :
    hasField (JVal.num 5) "type" = false ∧
    isToolCallRequest (JVal.num 5) = false ∧
    handleMessage ⟨none, none, SnappjackStatus.connected⟩ (JVal.num 5) =
      (⟨none, none, SnappjackStatus.connected⟩, [], none) ∧
    ([] : List DEvent) ≠ [DEvent.genericMessage (JVal.num 5)] := by
  refine ⟨rfl, rfl, rfl, by simp⟩

/-- C10 (amended): every inbound message that is a JSON object or array,
has no type field, and fails any tool-call shape check is re-emitted as
a generic message event with no state change and no reply of any kind. -/
theorem c10_generic_passthrough (s : DState) (m : JVal)
    (hobj : m.isJsObject = true) (hty : hasField m "type" = false)
    (htc : isToolCallRequest m = false) :
    handleMessage s m = (s, [DEvent.genericMessage m], none) := by
  simp [handleMessage, hobj, hty, htc]

/-- C10 witness at a concrete object message. -/
theorem c10_generic_passthrough_witness :
    handleMessage ⟨none, none, SnappjackStatus.connected⟩ (JVal.obj [("x", JVal.num 1)]) =
      (⟨none, none, SnappjackStatus.connected⟩,
       [DEvent.genericMessage (JVal.obj [("x", JVal.num 1)])], none) :=
  c10_generic_passthrough ⟨none, none, SnappjackStatus.connected⟩
    (JVal.obj [("x", JVal.num 1)]) rfl
    (by simp [hasField, getField, lookupField])
    (by simp [isToolCallRequest, hasField, getField, lookupField, JVal.isJsObject])

theorem enforceProps_keys (ps : List (String × Schema)) :
    (enforceProps ps).map Prod.fst = ps.map Prod.fst := by
  induction ps with
  | nil => simp [enforceProps]
  | cons hd tl ihp =>
    obtain ⟨k, sub⟩ := hd
    simp [enforceProps, ihp]

theorem addPropsErrs_eq_nil_iff (names : List String) (path : String)
    (fields : List (String × JVal)) :
    (addPropsErrs names path fields = []) ↔
      (fields.all (fun kv => names.contains kv.1) = true) := by
  induction fields with
  | nil => simp [addPropsErrs]
  | cons hd tl ihf =>
    simp only [addPropsErrs] at ihf ⊢
    by_cases hc : hd.1 ∈ names
    · simp [List.filterMap_cons, hc]
    · simp [List.filterMap_cons, hc]

theorem propsErrs_enforce (ps : List (String × Schema)) (path : String)
    (fields : List (String × JVal))
    (ih : ∀ k sub, (k, sub) ∈ ps → ∀ (p' : String) (v' : JVal),
      (validateErrors (enforceStrictSchema sub) p' v' = []) ↔
      ((validateErrors sub p' v' = []) ∧ noUndeclaredStrict sub v' = true)) :
    (propsErrs (enforceProps ps) path fields = []) ↔
      ((propsErrs ps path fields = []) ∧ nusProps ps fields = true) := by
  induction ps with
  | nil =>
    unfold enforceProps propsErrs nusProps
    simp
  | cons hd tl ihl =>
    obtain ⟨k, sub⟩ := hd
    have ihhd := ih k sub (List.mem_cons_self _ _)
    have ihtl := ihl (fun k' sub' h => ih k' sub' (List.mem_cons_of_mem _ h))
    unfold enforceProps propsErrs nusProps
    simp only [List.append_eq_nil, Bool.and_eq_true]
    cases hf : lookupField fields k with
    | none =>
      simp only [ihtl]
      tauto
    | some fv =>
      rw [ihhd (path ++ "/" ++ k) fv, ihtl]
      tauto

theorem itemsErrs_enforce (sub : Schema) (path : String) (elems : List JVal)
    (idx : Nat)
    (ih : ∀ (p' : String) (v' : JVal),
      (validateErrors (enforceStrictSchema sub) p' v' = []) ↔
      ((validateErrors sub p' v' = []) ∧ noUndeclaredStrict sub v' = true)) :
    (itemsErrs (enforceStrictSchema sub) path idx elems = []) ↔
      ((itemsErrs sub path idx elems = []) ∧ nusElems sub elems = true) := by
  induction elems generalizing idx with
  | nil =>
    unfold itemsErrs nusElems
    simp
  | cons x rest ihl =>
    unfold itemsErrs nusElems
    simp only [List.append_eq_nil, Bool.and_eq_true]
    rw [ih (path ++ "/" ++ toString idx) x, ihl (idx + 1)]
    tauto

theorem enforce_emptiness_aux :
    ∀ (n : Nat) (s : Schema), sizeOf s ≤ n → ∀ (path : String) (v : JVal),
      (validateErrors (enforceStrictSchema s) path v = []) ↔
      ((validateErrors s path v = []) ∧ noUndeclaredStrict s v = true) := by
  intro n
  induction n with
  | zero =>
    intro s hs
    exfalso
    cases s
    simp only [Schema.mk.sizeOf_spec] at hs
    omega
  | succ n ihn =>
    intro s hs path v
    obtain ⟨t, p, r, a, i⟩ := s
    cases p with
    | some ps =>
      by_cases ht : t = some "object"
      · subst ht
        have henf : enforceStrictSchema (Schema.mk (some "object") (some ps) r a i)
            = Schema.mk (some "object") (some (enforceProps ps)) r (some false) i := by
          unfold enforceStrictSchema
          simp
        rw [henf]
        have ihsub : ∀ k sub, (k, sub) ∈ ps → ∀ (p' : String) (v' : JVal),
            (validateErrors (enforceStrictSchema sub) p' v' = []) ↔
            ((validateErrors sub p' v' = []) ∧ noUndeclaredStrict sub v' = true) := by
          intro k sub hmem
          apply ihn
          have h1 : sizeOf (k, sub) < sizeOf ps := List.sizeOf_lt_of_mem hmem
          simp only [Schema.mk.sizeOf_spec, Option.some.sizeOf_spec,
            Prod.mk.sizeOf_spec] at hs h1 ⊢
          omega
        cases v with
        | obj fields =>
          have hprops := propsErrs_enforce ps path fields ihsub
          rcases a with _ | b
          · unfold validateErrors noUndeclaredStrict
            simp only [typeErrs, propNames, enforceProps_keys, List.nil_append,
              List.append_eq_nil, Bool.and_eq_true, addPropsErrs_eq_nil_iff,
              fieldsDeclared, ite_true, ite_false, if_true, if_false,
              Option.some.injEq, String.reduceEq, reduceIte]
            rw [hprops]
            tauto
          · cases b
            · unfold validateErrors noUndeclaredStrict
              simp only [typeErrs, propNames, enforceProps_keys, List.nil_append,
                List.append_eq_nil, Bool.and_eq_true, addPropsErrs_eq_nil_iff,
                fieldsDeclared, ite_true, ite_false, if_true, if_false,
                Option.some.injEq, String.reduceEq, reduceIte]
              rw [hprops]
              tauto
            · unfold validateErrors noUndeclaredStrict
              simp only [typeErrs, propNames, enforceProps_keys, List.nil_append,
                List.append_eq_nil, Bool.and_eq_true, addPropsErrs_eq_nil_iff,
                fieldsDeclared, ite_true, ite_false, if_true, if_false,
                Option.some.injEq, String.reduceEq, reduceIte]
              rw [hprops]
              tauto
        | arr elems =>
          unfold validateErrors noUndeclaredStrict
          simp [typeErrs]
        | null =>
          unfold validateErrors noUndeclaredStrict
          simp [typeErrs]
        | bool b =>
          unfold validateErrors noUndeclaredStrict
          simp [typeErrs]
        | num x =>
          unfold validateErrors noUndeclaredStrict
          simp [typeErrs]
        | str x =>
          unfold validateErrors noUndeclaredStrict
          simp [typeErrs]
      · by_cases ha : t = some "array"
        · subst ha
          have henf : enforceStrictSchema (Schema.mk (some "array") (some ps) r a i)
              = Schema.mk (some "array") (some ps) r a (enforceItemsOpt i) := by
            unfold enforceStrictSchema
            simp
          rw [henf]
          cases i with
          | none =>
            have hnus : noUndeclaredStrict (Schema.mk (some "array") (some ps) r a none) v
                = true := by
              unfold noUndeclaredStrict
              simp
            simp [enforceItemsOpt, hnus]
          | some sub =>
            have ihsubi : ∀ (p' : String) (v' : JVal),
                (validateErrors (enforceStrictSchema sub) p' v' = []) ↔
                ((validateErrors sub p' v' = []) ∧ noUndeclaredStrict sub v' = true) := by
              apply ihn
              simp only [Schema.mk.sizeOf_spec, Option.some.sizeOf_spec] at hs ⊢
              omega
            cases v with
            | arr elems =>
              have hitems := itemsErrs_enforce sub path elems 0 ihsubi
              unfold validateErrors noUndeclaredStrict
              simp only [enforceItemsOpt, typeErrs, List.nil_append]
              rw [hitems]
              simp
            | obj fields =>
              unfold validateErrors noUndeclaredStrict
              simp [typeErrs, enforceItemsOpt]
            | null =>
              unfold validateErrors noUndeclaredStrict
              simp [typeErrs, enforceItemsOpt]
            | bool b =>
              unfold validateErrors noUndeclaredStrict
              simp [typeErrs, enforceItemsOpt]
            | num x =>
              unfold validateErrors noUndeclaredStrict
              simp [typeErrs, enforceItemsOpt]
            | str x =>
              unfold validateErrors noUndeclaredStrict
              simp [typeErrs, enforceItemsOpt]
        · have henf : enforceStrictSchema (Schema.mk t (some ps) r a i)
              = Schema.mk t (some ps) r a i := by
            unfold enforceStrictSchema
            simp [ht, ha]
          rw [henf]
          have hnus : noUndeclaredStrict (Schema.mk t (some ps) r a i) v = true := by
            unfold noUndeclaredStrict
            simp [ht, ha]
          simp [hnus]
    | none =>
      by_cases ha : t = some "array"
      · subst ha
        have henf : enforceStrictSchema (Schema.mk (some "array") none r a i)
            = Schema.mk (some "array") none r a (enforceItemsOpt i) := by
          unfold enforceStrictSchema
          simp
        rw [henf]
        cases i with
        | none =>
          have hnus : noUndeclaredStrict (Schema.mk (some "array") none r a none) v
              = true := by
            unfold noUndeclaredStrict
            simp
          simp [enforceItemsOpt, hnus]
        | some sub =>
          have ihsubi : ∀ (p' : String) (v' : JVal),
              (validateErrors (enforceStrictSchema sub) p' v' = []) ↔
              ((validateErrors sub p' v' = []) ∧ noUndeclaredStrict sub v' = true) := by
            apply ihn
            simp only [Schema.mk.sizeOf_spec, Option.some.sizeOf_spec] at hs ⊢
            omega
          cases v with
          | arr elems =>
            have hitems := itemsErrs_enforce sub path elems 0 ihsubi
            unfold validateErrors noUndeclaredStrict
            simp only [enforceItemsOpt, typeErrs, List.nil_append]
            rw [hitems]
            simp
          | obj fields =>
            unfold validateErrors noUndeclaredStrict
            simp [typeErrs, enforceItemsOpt]
          | null =>
            unfold validateErrors noUndeclaredStrict
            simp [typeErrs, enforceItemsOpt]
          | bool b =>
            unfold validateErrors noUndeclaredStrict
            simp [typeErrs, enforceItemsOpt]
          | num x =>
            unfold validateErrors noUndeclaredStrict
            simp [typeErrs, enforceItemsOpt]
          | str x =>
            unfold validateErrors noUndeclaredStrict
            simp [typeErrs, enforceItemsOpt]
      · have henf : enforceStrictSchema (Schema.mk t none r a i)
            = Schema.mk t none r a i := by
          unfold enforceStrictSchema
          simp [ha]
        rw [henf]
        have hnus : noUndeclaredStrict (Schema.mk t none r a i) v = true := by
          unfold noUndeclaredStrict
          simp [ha]
        simp [hnus]

theorem validate_enforce_iff (s : Schema) (path : String) (v : JVal) :
    (validateErrors (enforceStrictSchema s) path v = []) ↔
    ((validateErrors s path v = []) ∧ noUndeclaredStrict s v = true) :=
  enforce_emptiness_aux (sizeOf s) s (le_refl _) path v

theorem mapGet_mapSet {α : Type} (m : List (String × α)) (k : String) (x : α) :
    mapGet (mapSet m k x) k = some x := by
  induction m with
  | nil => simp [mapSet, mapGet]
  | cons hd tl ihm =>
    obtain ⟨k', y⟩ := hd
    by_cases h : k' = k <;> simp [mapSet, mapGet, h, ihm]

/-- C4 (amended): after registration, the compiled strict validator
accepts exactly the arguments that satisfy the declared schema and
contain no undeclared properties at the object subschemas that carry a
properties map (reached through the strict-rewriting recursion); on
rejection at least one path/message error pair is reported. -/
theorem c4_validate_strict (reg : ToolRegistry) (tool : Tool) (v : JVal) :
    ((ToolRegistry.register reg tool).validate tool.name v).isValid
      = ((validateErrors tool.inputSchema "" v).isEmpty
          && noUndeclaredStrict tool.inputSchema v) ∧
    (((ToolRegistry.register reg tool).validate tool.name v).isValid = false →
      ((ToolRegistry.register reg tool).validate tool.name v).errors ≠ []) := by
  have hget : mapGet (ToolRegistry.register reg tool).validators tool.name
      = some (enforceStrictSchema tool.inputSchema) := by
    simp [ToolRegistry.register, mapGet_mapSet]
  constructor
  · simp only [ToolRegistry.validate, hget]
    by_cases he : validateErrors (enforceStrictSchema tool.inputSchema) "" v = []
    · have hr := (validate_enforce_iff tool.inputSchema "" v).mp he
      simp [he, List.isEmpty_iff, hr.1, hr.2]
    · have hne : ¬((validateErrors tool.inputSchema "" v = []) ∧
          noUndeclaredStrict tool.inputSchema v = true) :=
        fun hc => he ((validate_enforce_iff tool.inputSchema "" v).mpr hc)
      by_cases hsat : validateErrors tool.inputSchema "" v = []
      · have hnus : noUndeclaredStrict tool.inputSchema v = false := by
          cases hv : noUndeclaredStrict tool.inputSchema v
          · rfl
          · exact absurd ⟨hsat, hv⟩ hne
        simp [he, List.isEmpty_iff, hnus]
      · simp [he, List.isEmpty_iff, hsat]
  · intro hfalse
    simp only [ToolRegistry.validate, hget] at hfalse ⊢
    by_cases he : validateErrors (enforceStrictSchema tool.inputSchema) "" v = []
    · simp [he] at hfalse
    · simp [he]

/-- C4 amended-claim witness at a concrete input: the extra top-level
property is rejected with an error, and a conforming argument passes. -/
theorem c4_validate_strict_witness :
    ((ToolRegistry.register ⟨[], []⟩ ⟨"t4", none, c4Schema, some ()⟩).validate
        "t4" (JVal.obj [("stray", JVal.num 2)])).isValid
      = ((validateErrors c4Schema "" (JVal.obj [("stray", JVal.num 2)])).isEmpty
          && noUndeclaredStrict c4Schema (JVal.obj [("stray", JVal.num 2)])) ∧
    (((ToolRegistry.register ⟨[], []⟩ ⟨"t4", none, c4Schema, some ()⟩).validate
        "t4" (JVal.obj [("stray", JVal.num 2)])).isValid = false →
      ((ToolRegistry.register ⟨[], []⟩ ⟨"t4", none, c4Schema, some ()⟩).validate
        "t4" (JVal.obj [("stray", JVal.num 2)])).errors ≠ []) :=
  c4_validate_strict ⟨[], []⟩ ⟨"t4", none, c4Schema, some ()⟩
    (JVal.obj [("stray", JVal.num 2)])

/-- C4 counterexample: for the registered tool with schema
type object, properties containing obj of type object (no nested
properties map), the argument with an undeclared nested field rogue
satisfies the declared schema and is accepted by the compiled strict
validator, although it does contain a property not declared in the
schema at nesting level one — refuting the claimed equivalence. -/
theorem c4_counterexample :
    (ToolRegistry.validate c4Reg "t4" c4Args).isValid = true ∧
    (validateErrors c4Schema "" c4Args = []) ∧
    noUndeclared c4Schema c4Args = false := by
  refine ⟨?_, ?_, ?_⟩ <;>
    simp [c4Reg, c4Schema, c4Args, ToolRegistry.register, ToolRegistry.validate,
      mapSet, mapGet, validateErrors, typeErrs, requiredErrs, addPropsErrs, propNames,
      propsErrs, itemsErrs, enforceStrictSchema, enforceProps, enforceItemsOpt,
      lookupField, noUndeclared, nuFields, nuElems, declaredIn, propSchemaOrEmpty,
      Schema.propertiesOf, lookupProp, Schema.empty, itemsOrEmpty, Schema.itemsOf]

end Snappjack
